import Mathlib

set_option maxRecDepth 8000

/-!
Shallow embedding of `src/app.py` (LINE chatbot with TinyDB memory).
Text is modelled as `List Char` (matching Python `str` as a sequence of
code points); timestamps as a `Nat` logical clock that ticks on every
message insert (`datetime.utcnow().isoformat()` strings are strictly
increasing at this granularity).  The two OpenAI chat-completion calls are
modelled by two oracles of type `LLM`, returning `none` on any backend
exception.  HTTP transport (`reply_to_line`, Flask routing) is outside the
core: `handleEvent` returns the reply text that would be delivered.
-/

/-- Python `str` modelled as a list of code points. -/
abbrev Str := List Char

/-- Code points of a Lean string literal. -/
def str (s : String) : Str := s.data

/-- Python `str.strip()` (ASCII whitespace suffices for the inputs here). -/
def trim (s : Str) : Str :=
  ((s.dropWhile Char.isWhitespace).reverse.dropWhile Char.isWhitespace).reverse

/-- Value of a non-empty all-digit string, else `none`. -/
def digitsToNat (s : Str) : Option Nat :=
  if s = [] then none
  else if s.all Char.isDigit then
    some (s.foldl (fun a c => a * 10 + (c.toNat - '0'.toNat)) 0)
  else none

/-- Python `int(s)` on an already-stripped string: optional sign, then
decimal digits (digit-group underscores and non-ASCII digits are not
used by any input considered here). -/
def parseInt (s : Str) : Option Int :=
  match s with
  | '+' :: rest => (digitsToNat rest).map Int.ofNat
  | '-' :: rest => (digitsToNat rest).map (fun n => -(Int.ofNat n))
  | _ => (digitsToNat s).map Int.ofNat

/-- The age-acceptance test of the `need_age` branch:
`age = int(age_str)` followed by `if age <= 0 or age > 120: raise`,
with every failure caught by the same `except`. -/
def parseAge (s : Str) : Option Int :=
  match parseInt s with
  | none => none
  | some a => if a ≤ 0 ∨ a > 120 then none else some a

/-- Python `str(n)` for an `int`. -/
def intToStr : Int → Str
  | Int.ofNat n => Nat.toDigits 10 n
  | Int.negSucc n => '-' :: Nat.toDigits 10 (n + 1)

/-- One row of the TinyDB `users` table. -/
structure UserProfile where
  user_id : Str
  display_name : Str
  age : Option Int
  state : Str
  persona_summary : Str
  message_count : Nat
  created_at : Nat
  updated_at : Nat
deriving DecidableEq, Repr

/-- One row of the TinyDB `messages` table. -/
structure Turn where
  user_id : Str
  role : Str
  content : Str
  created_at : Nat
deriving DecidableEq, Repr

/-- The TinyDB database `memory.json`: both tables plus the logical clock. -/
structure Store where
  users : List UserProfile
  messages : List Turn
  clock : Nat
deriving DecidableEq, Repr

/-- `users_table.get(U.user_id == line_user_id)`: first matching row. -/
def findUser (st : Store) (uid : Str) : Option UserProfile :=
  st.users.find? (fun u => decide (u.user_id = uid))

/-- `get_or_create_user`: fetch the row, inserting a fresh one first when
absent (fresh rows: empty name, no age, state `need_name`, empty persona,
count 0). -/
def get_or_create_user (uid : Str) (st : Store) : UserProfile × Store :=
  match findUser st uid with
  | some u => (u, st)
  | none =>
      let fresh : UserProfile :=
        { user_id := uid, display_name := [], age := none,
          state := str "need_name", persona_summary := [],
          message_count := 0, created_at := st.clock, updated_at := st.clock }
      let st' : Store := { st with users := st.users ++ [fresh] }
      ((findUser st' uid).getD fresh, st')

/-- `update_user(line_user_id, **fields)`: apply the field updates `f` to
every matching row and refresh `updated_at`. -/
def update_user (uid : Str) (f : UserProfile → UserProfile) (st : Store) : Store :=
  { st with
    users := st.users.map (fun u =>
      if u.user_id = uid then { f u with updated_at := st.clock } else u) }

/-- `delete_user`: remove the profile row and all message rows of `uid`. -/
def delete_user (uid : Str) (st : Store) : Store :=
  { st with
    users := st.users.filter (fun u => decide ¬(u.user_id = uid)),
    messages := st.messages.filter (fun m => decide ¬(m.user_id = uid)) }

/-- `save_message`: append the turn; when `count_up` and the role is
`"user"`, re-fetch the profile and bump `message_count` by one. -/
def save_message (uid role content : Str) (count_up : Bool) (st : Store) : Store :=
  let st1 : Store :=
    { st with
      messages := st.messages ++ [⟨uid, role, content, st.clock⟩],
      clock := st.clock + 1 }
  if count_up ∧ role = str "user" then
    match findUser st1 uid with
    | some u =>
        update_user uid (fun v => { v with message_count := u.message_count + 1 }) st1
    | none => st1
  else st1

/-- Comparison used by `sorted(rows, key=lambda r: r.get("created_at", ""))`. -/
def byCreated (a b : Turn) : Prop := a.created_at ≤ b.created_at

instance : DecidableRel byCreated := fun a b => Nat.decLe a.created_at b.created_at

instance : IsTotal Turn byCreated := ⟨fun a b => Nat.le_total a.created_at b.created_at⟩

instance : IsTrans Turn byCreated := ⟨fun _ _ _ => Nat.le_trans⟩

/-- Python's `rows_sorted[-limit:]` for `limit > 0`: the last `limit`
elements. -/
def lastSlice (limit : Nat) (l : List α) : List α := l.drop (l.length - limit)

/-- `get_recent_messages`: the user's rows, sorted ascending by
`created_at`, last `limit` of them. -/
def get_recent_messages (uid : Str) (limit : Nat) (st : Store) : List Turn :=
  let rows := st.messages.filter (fun r => decide (r.user_id = uid))
  let rows_sorted := List.insertionSort byCreated rows
  lastSlice limit rows_sorted

/-- A chat-completion message `(role, content)`. -/
abbrev ChatMsg := Str × Str

/-- A chat-completion backend call: `none` models any raised exception
(timeout, quota, malformed response). -/
abbrev LLM := List ChatMsg → Option Str

/-- `get_age_language_rule`: age-tiered vocabulary rule (tiers at ≤6, ≤8,
≤10, above, and a default when the age is unknown). -/
def get_age_language_rule : Option Int → Str
  | none =>
      str "小学生でも読めるように、やさしい日本語を使ってください。むずかしい漢字や専門用語はできるだけ使わず、ひらがなを多めにしてください。"
  | some age =>
      if age ≤ 6 then
        str "このユーザーは６才くらいです。小１の子でも読める漢字だけを使い、それ以外のむずかしい漢字はひらがなにしてください。"
      else if age ≤ 8 then
        str "このユーザーは７〜８才くらいです。小２までに習う漢字を中心に使い、それよりむずかしい漢字はひらがなか（ふりがな）をつけてください。"
      else if age ≤ 10 then
        str "このユーザーは９〜１０才くらいです。小４レベルまでの漢字なら使ってよいですが、むずかしい言葉にはかんたんな説明をそえてください。"
      else
        str "このユーザーは高学年です。小学生でも読めるレベルの漢字とことばを使い、とてもむずかしい漢字や専門用語はできるだけ避けてください。"

/-- The fixed instruction prepended to the joined user utterances in
`update_persona_summary_if_needed`. -/
def summaryInstruction : Str :=
  str "以下はある子どもとの会話ログです。\nこの子の性格や好み、話し方の特徴を、3〜6行程度の箇条書きでやさしくまとめてください。\n決めつけすぎず、ソフトな表現でお願いします。\n\n"

/-- The system message of the summarization call. -/
def summarySystem : Str :=
  str "あなたはカウンセラーのように穏やかに人の特徴を要約します。"

/-- `update_persona_summary_if_needed(line_user_id, user)`: gate on the
`message_count` of the PASSED snapshot `user`; on fire, take the last 50
user-authored rows ascending by `created_at`, join their contents with
newlines, call the backend, and on success store the stripped summary.
Any backend exception is swallowed (store returned unchanged). -/
def update_persona_summary_if_needed (summaryLLM : LLM) (uid : Str)
    (user : UserProfile) (st : Store) : Store :=
  let msg_count := user.message_count
  if msg_count < 10 ∨ msg_count % 10 ≠ 0 then st
  else
    let rows := st.messages.filter
      (fun r => decide (r.user_id = uid ∧ r.role = str "user"))
    let rows_sorted := List.insertionSort byCreated rows
    let recent_user_msgs := (lastSlice 50 rows_sorted).map (fun r => r.content)
    if recent_user_msgs = [] then st
    else
      let joined := List.intercalate (str "\n") recent_user_msgs
      let prompt := summaryInstruction ++ joined
      match summaryLLM [(str "system", summarySystem), (str "user", prompt)] with
      | some summary =>
          update_user uid (fun v => { v with persona_summary := trim summary }) st
      | none => st

/-- The fixed base system directive of `generate_ai_reply`. -/
def base_system : Str :=
  str "あなたはLINEで相手に寄りそう日本語アシスタントです。全知全能の神さまのようにふるまいますが、こどもにやさしく話してください。回答は威厳がある口調ですが、こわくなりすぎないようにしてください。絵文字をたっぷり使ってかまいませんが、読みやすさは保ってください。文章量は2〜4だんらく、合計4〜8文を目安にしてください。相手は小学生です。"

/-- Content of the identity block (emitted when the stripped display name
is non-empty). -/
def identityContent (display_name : Str) : Str :=
  str "このユーザーの名前は「" ++ display_name ++ str "」。ときどき、やさしく名前を呼んでください。"

/-- Content of the age-fact block (emitted when `age` is set). -/
def ageFactContent (age : Int) : Str :=
  str "このユーザーは " ++ intToStr age ++ str " 才くらいの子どもです。その年れいに合った話し方をしてください。"

/-- Content of the persona block (emitted when `persona_summary` is
non-empty). -/
def personaContent (persona : Str) : Str :=
  str "このユーザーについて、過去の会話からわかっている特徴は次のとおりです。\nこの情報を参考にしつつ、より相性のよい話し方を選んでください。\n\n" ++ persona

/-- The message-list assembly of `generate_ai_reply`, over the profile,
the retrieved recent window, and the new inbound text. -/
def buildPrompt (user : UserProfile) (recent : List Turn) (user_text : Str) :
    List ChatMsg :=
  let display_name := trim user.display_name
  let age := user.age
  let persona := user.persona_summary
  [(str "system", base_system ++ get_age_language_rule age)]
  ++ (if display_name = [] then [] else [(str "system", identityContent display_name)])
  ++ (match age with
      | none => []
      | some a => [(str "system", ageFactContent a)])
  ++ (if persona = [] then [] else [(str "system", personaContent persona)])
  ++ recent.map (fun turn => (turn.role, turn.content))
  ++ [(str "user", user_text)]

/-- `generate_ai_reply`: assemble the prompt over the last 8 turns, call
the backend (`none` models the raised exception, propagated to the
caller before anything is persisted), then on success strip the reply,
log the user turn (with count-up), log the assistant turn (no count-up),
and run the summarizer on the pre-count profile snapshot `user`. -/
def generate_ai_reply (replyLLM summaryLLM : LLM) (uid user_text : Str)
    (user : UserProfile) (st : Store) : Option (Str × Store) :=
  let recent := get_recent_messages uid 8 st
  let messages := buildPrompt user recent user_text
  match replyLLM messages with
  | none => none
  | some r =>
      let reply := trim r
      let st1 := save_message uid (str "user") user_text true st
      let st2 := save_message uid (str "assistant") reply false st1
      let st3 := update_persona_summary_if_needed summaryLLM uid user st2
      some (reply, st3)

/-- `", ".join` of a list of strings (JSON array separator). -/
def joinComma : List Str → Str
  | [] => []
  | [x] => x
  | x :: y :: xs => x ++ str ", " ++ joinComma (y :: xs)

/-- JSON text of one `users`-table row inside `memory.json` (TinyDB
serializes every stored field of every document). -/
def dumpUser (u : UserProfile) : Str :=
  str "\x7b\x22user_id\x22: \x22" ++ u.user_id
  ++ str "\x22, \x22display_name\x22: \x22" ++ u.display_name
  ++ str "\x22, \x22age\x22: "
  ++ (match u.age with | none => str "null" | some a => intToStr a)
  ++ str ", \x22state\x22: \x22" ++ u.state
  ++ str "\x22, \x22persona_summary\x22: \x22" ++ u.persona_summary
  ++ str "\x22, \x22message_count\x22: " ++ intToStr u.message_count
  ++ str "\x7d"

/-- JSON text of one `messages`-table row inside `memory.json`. -/
def dumpTurn (t : Turn) : Str :=
  str "\x7b\x22user_id\x22: \x22" ++ t.user_id
  ++ str "\x22, \x22role\x22: \x22" ++ t.role
  ++ str "\x22, \x22content\x22: \x22" ++ t.content
  ++ str "\x22\x7d"

/-- The raw contents of `memory.json` as read back by the memory-display
command: one JSON document holding the full `users` and `messages`
tables of ALL users. -/
def dumpStore (st : Store) : Str :=
  str "\x7b\x22users\x22: ["
  ++ joinComma (st.users.map dumpUser)
  ++ str "], \x22messages\x22: ["
  ++ joinComma (st.messages.map dumpTurn)
  ++ str "]\x7d"

/-- Reply of the reset command. -/
def resetText : Str :=
  str "よかろう。これまでのきおくは すべて忘れたぞ✨\nあらためて、そなたの名を教えてくれ。"

/-- Header of the memory-display reply. -/
def memoryHeader : Str := str "📘 今の記憶データだよ：\n"

/-- Truncation marker appended when the dump exceeds 2500 characters. -/
def truncationNote : Str := str "\n…（長いのでここまでを表示したよ）"

/-- Reply of the `need_name` branch for accepted name `name`. -/
def needNameReply (name : Str) : Str :=
  str "ほう、「" ++ name
  ++ str "」という名なのだな✨\nよい名であるぞ。つぎに、そなたの年れいを 数字だけで 教えてくれぬか？（たとえば 6 ）"

/-- Fixed re-prompt of the `need_age` branch on a rejected age. -/
def badAgeReply : Str :=
  str "年れいは 数字だけ で教えてほしいのだ。たとえば「6」などと答えるのじゃ😊"

/-- Reply of the `need_age` branch for accepted age `age` and name `name`. -/
def ageOkReply (age : Int) (name : Str) : Str :=
  intToStr age ++ str " 才なのだな、" ++ name
  ++ str "よ✨\nよく教えてくれた。これからは、そなたの年れいに合わせて、神として ものごとを分かりやすく語っていこう。"

/-- Fixed apologetic fallback on reply-generation backend failure. -/
def fallbackText : Str :=
  str "ごめんな、ちょっと神のちからの 調子が わるいようだ🥲\nすこし時間をおいてから、もういちど 話しかけてくれるとうれしい。"

/-- The per-event body of `webhook()` for one text-message event
`(uid, user_text)`: returns the updated store and the text handed to
`reply_to_line`.  Mirrors the source's if/continue chain: profile
fetch/create, reset command, memory-display command, `need_name`
branch, `need_age` branch, then normal mode. -/
def handleEvent (replyLLM summaryLLM : LLM) (st : Store)
    (uid user_text : Str) : Store × Str :=
  let us := get_or_create_user uid st
  let user := us.1
  let st0 := us.2
  let state := if user.state = [] then str "need_name" else user.state
  if trim user_text = str "リセット" then
    (delete_user uid st0, resetText)
  else if trim user_text = str "記憶みせて" then
    let data := dumpStore st0
    let data :=
      if 2500 < data.length then data.take 2500 ++ truncationNote else data
    (st0, memoryHeader ++ data)
  else if state = str "need_name" then
    let nm := trim user_text
    let st1 := update_user uid
      (fun v => { v with display_name := nm, state := str "need_age" }) st0
    let st2 := save_message uid (str "user") user_text true st1
    let bot_text := needNameReply nm
    let st3 := save_message uid (str "assistant") bot_text false st2
    (st3, bot_text)
  else if state = str "need_age" then
    match parseAge (trim user_text) with
    | none =>
        let st1 := save_message uid (str "user") user_text true st0
        let st2 := save_message uid (str "assistant") badAgeReply false st1
        (st2, badAgeReply)
    | some age =>
        let st1 := update_user uid
          (fun v => { v with age := some age, state := str "ready" }) st0
        let st2 := save_message uid (str "user") user_text true st1
        let nm := if user.display_name = [] then str "きみ" else user.display_name
        let bot_text := ageOkReply age nm
        let st3 := save_message uid (str "assistant") bot_text false st2
        (st3, bot_text)
  else
    match generate_ai_reply replyLLM summaryLLM uid user_text user st0 with
    | some rs => (rs.2, rs.1)
    | none =>
        let st1 := save_message uid (str "user") user_text true st0
        let st2 := save_message uid (str "assistant") fallbackText false st1
        (st2, fallbackText)

/-! ### Store-tracking lemmas -/

/-- `message_count` of `uid`'s profile, when present. -/
def countOf (st : Store) (uid : Str) : Option Nat :=
  (findUser st uid).map (fun u => u.message_count)

/-- `persona_summary` of `uid`'s profile, when present. -/
def personaOf (st : Store) (uid : Str) : Option Str :=
  (findUser st uid).map (fun u => u.persona_summary)

theorem find?_map_ite {l : List UserProfile} {uid : Str} {f : UserProfile → UserProfile}
    {clk : Nat} (hf : ∀ v, (f v).user_id = v.user_id) :
    (l.map (fun u =>
        if u.user_id = uid then { f u with updated_at := clk } else u)).find?
        (fun u => decide (u.user_id = uid))
      = (l.find? (fun u => decide (u.user_id = uid))).map
          (fun u => { f u with updated_at := clk }) := by
  induction l with
  | nil => rfl
  | cons a l ih =>
      by_cases h : a.user_id = uid
      · simp only [List.map_cons, if_pos h]
        rw [List.find?_cons_of_pos, List.find?_cons_of_pos]
        · simp
        · simp [h]
        · simp [hf, h]
      · simp only [List.map_cons, if_neg h]
        rw [List.find?_cons_of_neg, List.find?_cons_of_neg]
        · exact ih
        · simp [h]
        · simp [h]

theorem findUser_update_user {st : Store} {uid : Str} (f : UserProfile → UserProfile)
    (hf : ∀ v, (f v).user_id = v.user_id) :
    findUser (update_user uid f st) uid
      = (findUser st uid).map (fun u => { f u with updated_at := st.clock }) := by
  simp only [findUser, update_user]
  exact find?_map_ite hf

theorem findUser_append_fresh {st : Store} {uid : Str} (fresh : UserProfile)
    (h : findUser st uid = none) (hid : fresh.user_id = uid) :
    findUser { st with users := st.users ++ [fresh] } uid = some fresh := by
  simp only [findUser] at h ⊢
  rw [List.find?_append, h]
  simp [List.find?, hid]

theorem get_or_create_of_found {st : Store} {uid : Str} {u : UserProfile}
    (h : findUser st uid = some u) :
    get_or_create_user uid st = (u, st) := by
  simp [get_or_create_user, h]

theorem get_or_create_of_fresh {st : Store} {uid : Str}
    (h : findUser st uid = none) :
    get_or_create_user uid st =
      (⟨uid, [], none, str "need_name", [], 0, st.clock, st.clock⟩,
       { st with users := st.users ++
          [⟨uid, [], none, str "need_name", [], 0, st.clock, st.clock⟩] }) := by
  simp only [get_or_create_user, h]
  rw [findUser_append_fresh _ h rfl]
  rfl

theorem findUser_congr_users {st st' : Store} {uid : Str}
    (h : st'.users = st.users) : findUser st' uid = findUser st uid := by
  simp [findUser, h]

theorem save_message_users_no_count {uid role c : Str} {st : Store}
    (h : ¬(role = str "user")) :
    (save_message uid role c true st).users = st.users := by
  simp [save_message, h]

theorem save_message_users_false {uid role c : Str} {st : Store} :
    (save_message uid role c false st).users = st.users := by
  simp [save_message]

theorem findUser_save_user {st : Store} {uid c : Str} {u : UserProfile}
    (h : findUser st uid = some u) :
    findUser (save_message uid (str "user") c true st) uid
      = some { u with message_count := u.message_count + 1,
                      updated_at := st.clock + 1 } := by
  have h1 : findUser
      { st with messages := st.messages ++ [⟨uid, str "user", c, st.clock⟩],
                clock := st.clock + 1 } uid = some u := h
  simp only [save_message, and_self, if_true, true_and, if_pos trivial]
  rw [h1]
  rw [findUser_update_user (fun v => { v with message_count := u.message_count + 1 })
        (fun v => rfl), h1]
  rfl

theorem findUser_save_user_none {st : Store} {uid c : Str}
    (h : findUser st uid = none) :
    findUser (save_message uid (str "user") c true st) uid = none := by
  have h1 : findUser
      { st with messages := st.messages ++ [⟨uid, str "user", c, st.clock⟩],
                clock := st.clock + 1 } uid = none := h
  simp only [save_message, and_self, if_true, true_and, if_pos trivial]
  rw [h1]
  exact h1

theorem personaOf_update_persona_none {sLLM : LLM} {uid : Str}
    {user : UserProfile} {st : Store}
    (hs : ∀ p, sLLM p = none) :
    update_persona_summary_if_needed sLLM uid user st = st := by
  simp only [update_persona_summary_if_needed, hs]
  split
  · rfl
  · split
    · rfl
    · rfl

theorem update_persona_not_due {sLLM : LLM} {uid : Str}
    {user : UserProfile} {st : Store}
    (h : user.message_count < 10 ∨ user.message_count % 10 ≠ 0) :
    update_persona_summary_if_needed sLLM uid user st = st := by
  simp only [update_persona_summary_if_needed]
  rw [if_pos h]

/-! ### Branch-selection lemmas for `handleEvent` -/

theorem state_need_name_ne_nil : ¬(str "need_name" = ([] : Str)) := by decide

theorem state_need_age_ne_nil : ¬(str "need_age" = ([] : Str)) := by decide

theorem state_ready_ne_nil : ¬(str "ready" = ([] : Str)) := by decide

theorem state_need_age_ne_need_name : ¬(str "need_age" = str "need_name") := by decide

theorem state_ready_ne_need_name : ¬(str "ready" = str "need_name") := by decide

theorem state_ready_ne_need_age : ¬(str "ready" = str "need_age") := by decide

theorem handleEvent_need_name {r s : LLM} {st : Store} {uid text : Str}
    {u : UserProfile} (h : findUser st uid = some u)
    (hst : u.state = str "need_name" ∨ u.state = [])
    (hr : ¬(trim text = str "リセット")) (hm : ¬(trim text = str "記憶みせて")) :
    handleEvent r s st uid text =
      (save_message uid (str "assistant") (needNameReply (trim text)) false
        (save_message uid (str "user") text true
          (update_user uid
            (fun v => { v with display_name := trim text, state := str "need_age" }) st)),
       needNameReply (trim text)) := by
  rcases hst with hst | hst <;>
    simp [handleEvent, get_or_create_of_found h, hst, hr, hm, state_need_name_ne_nil]

theorem handleEvent_need_age_bad {r s : LLM} {st : Store} {uid text : Str}
    {u : UserProfile} (h : findUser st uid = some u)
    (hst : u.state = str "need_age")
    (hr : ¬(trim text = str "リセット")) (hm : ¬(trim text = str "記憶みせて"))
    (hp : parseAge (trim text) = none) :
    handleEvent r s st uid text =
      (save_message uid (str "assistant") badAgeReply false
        (save_message uid (str "user") text true st),
       badAgeReply) := by
  simp [handleEvent, get_or_create_of_found h, hst, hr, hm, hp,
        state_need_age_ne_nil, state_need_age_ne_need_name]

theorem handleEvent_need_age_ok {r s : LLM} {st : Store} {uid text : Str}
    {u : UserProfile} {a : Int} (h : findUser st uid = some u)
    (hst : u.state = str "need_age")
    (hr : ¬(trim text = str "リセット")) (hm : ¬(trim text = str "記憶みせて"))
    (hp : parseAge (trim text) = some a) :
    handleEvent r s st uid text =
      (save_message uid (str "assistant")
        (ageOkReply a (if u.display_name = [] then str "きみ" else u.display_name)) false
        (save_message uid (str "user") text true
          (update_user uid
            (fun v => { v with age := some a, state := str "ready" }) st)),
       ageOkReply a (if u.display_name = [] then str "きみ" else u.display_name)) := by
  simp [handleEvent, get_or_create_of_found h, hst, hr, hm, hp,
        state_need_age_ne_nil, state_need_age_ne_need_name]

theorem handleEvent_normal {r s : LLM} {st : Store} {uid text : Str}
    {u : UserProfile} (h : findUser st uid = some u)
    (h0 : ¬(u.state = [])) (h1 : ¬(u.state = str "need_name"))
    (h2 : ¬(u.state = str "need_age"))
    (hr : ¬(trim text = str "リセット")) (hm : ¬(trim text = str "記憶みせて")) :
    handleEvent r s st uid text =
      (match generate_ai_reply r s uid text u st with
       | some rs => (rs.2, rs.1)
       | none =>
           (save_message uid (str "assistant") fallbackText false
             (save_message uid (str "user") text true st),
            fallbackText)) := by
  simp [handleEvent, get_or_create_of_found h, h0, h1, h2, hr, hm]

theorem handleEvent_fresh {r s : LLM} {st : Store} {uid text : Str}
    (h : findUser st uid = none)
    (hr : ¬(trim text = str "リセット")) (hm : ¬(trim text = str "記憶みせて")) :
    handleEvent r s st uid text =
      (save_message uid (str "assistant") (needNameReply (trim text)) false
        (save_message uid (str "user") text true
          (update_user uid
            (fun v => { v with display_name := trim text, state := str "need_age" })
            { st with users := st.users ++
                [⟨uid, [], none, str "need_name", [], 0, st.clock, st.clock⟩] })),
       needNameReply (trim text)) := by
  simp [handleEvent, get_or_create_of_fresh h, hr, hm, state_need_name_ne_nil]

theorem handleEvent_reset {r s : LLM} {st : Store} {uid text : Str}
    {u : UserProfile} (h : findUser st uid = some u)
    (hr : trim text = str "リセット") :
    handleEvent r s st uid text = (delete_user uid st, resetText) := by
  simp [handleEvent, get_or_create_of_found h, hr]

theorem countOf_congr_users {st st' : Store} {uid : Str}
    (h : st'.users = st.users) : countOf st' uid = countOf st uid := by
  simp [countOf, findUser_congr_users h]

theorem personaOf_congr_users {st st' : Store} {uid : Str}
    (h : st'.users = st.users) : personaOf st' uid = personaOf st uid := by
  simp [personaOf, findUser_congr_users h]

theorem countOf_update_user {st : Store} {uid : Str} (g : UserProfile → UserProfile)
    (hg : ∀ v, (g v).user_id = v.user_id)
    (hc : ∀ v, (g v).message_count = v.message_count) :
    countOf (update_user uid g st) uid = countOf st uid := by
  simp only [countOf, findUser_update_user g hg]
  cases findUser st uid <;> simp [hc]

theorem personaOf_update_user {st : Store} {uid : Str} (g : UserProfile → UserProfile)
    (hg : ∀ v, (g v).user_id = v.user_id)
    (hp : ∀ v, (g v).persona_summary = v.persona_summary) :
    personaOf (update_user uid g st) uid = personaOf st uid := by
  simp only [personaOf, findUser_update_user g hg]
  cases findUser st uid <;> simp [hp]

theorem countOf_update_persona {s : LLM} {uid : Str} {user : UserProfile} {st : Store} :
    countOf (update_persona_summary_if_needed s uid user st) uid = countOf st uid := by
  simp only [update_persona_summary_if_needed]
  split
  · rfl
  · split
    · rfl
    · split
      · exact countOf_update_user _ (fun v => rfl) (fun v => rfl)
      · rfl

theorem countOf_save_user {st : Store} {uid c : Str} {u : UserProfile}
    (h : findUser st uid = some u) :
    countOf (save_message uid (str "user") c true st) uid
      = some (u.message_count + 1) := by
  simp [countOf, findUser_save_user h]

theorem personaOf_save_user {st : Store} {uid c : Str} {u : UserProfile}
    (h : findUser st uid = some u) :
    personaOf (save_message uid (str "user") c true st) uid
      = some u.persona_summary := by
  simp [personaOf, findUser_save_user h]

theorem save_message_messages (uid role c : Str) (cu : Bool) (st : Store) :
    (save_message uid role c cu st).messages
        = st.messages ++ [⟨uid, role, c, st.clock⟩]
      ∧ (save_message uid role c cu st).clock = st.clock + 1 := by
  simp only [save_message]
  split
  · split
    · exact ⟨rfl, rfl⟩
    · exact ⟨rfl, rfl⟩
  · exact ⟨rfl, rfl⟩

theorem update_persona_due {s : LLM} {uid : Str} {user : UserProfile} {st : Store}
    {sum : Str}
    (hdue : 10 ≤ user.message_count ∧ user.message_count % 10 = 0)
    (hne : ¬(st.messages.filter
        (fun t => decide (t.user_id = uid ∧ t.role = str "user")) = []))
    (hs : ∀ p, s p = some sum) :
    update_persona_summary_if_needed s uid user st =
      update_user uid (fun v => { v with persona_summary := trim sum }) st := by
  simp only [update_persona_summary_if_needed, hs]
  rw [if_neg (by omega)]
  rw [if_neg ?hrec]
  case hrec =>
    intro hrecnil
    apply hne
    have hlen := congrArg List.length hrecnil
    simp only [List.length_map, List.length_nil, lastSlice, List.length_drop,
      List.length_insertionSort] at hlen
    have := List.length_eq_zero.mpr (rfl : ([] : List Turn) = [])
    cases hfil : st.messages.filter
        (fun t => decide (t.user_id = uid ∧ t.role = str "user")) with
    | nil => rfl
    | cons a l =>
        exfalso
        rw [hfil] at hlen
        simp at hlen
        omega

/-! ### Claim theorems -/

/-- C7: the recent-history window included in the prompt (the
`get_recent_messages` result with `limit = 8` that `generate_ai_reply`
splices into the prompt) never exceeds 8 turns and is always in ascending
order of `created_at`, whatever order the store returns rows in. -/
theorem C7_recent_window_bounded_and_sorted (st : Store) (uid : Str) :
    (get_recent_messages uid 8 st).length ≤ 8 ∧
    List.Sorted (fun a b => a ≤ b)
      ((get_recent_messages uid 8 st).map (fun t => t.created_at)) := by
  constructor
  · simp only [get_recent_messages, lastSlice, List.length_drop]
    omega
  · have hs : List.Sorted byCreated
        (List.insertionSort byCreated
          (st.messages.filter (fun t => decide (t.user_id = uid)))) :=
      List.sorted_insertionSort byCreated _
    have hd : List.Sorted byCreated (get_recent_messages uid 8 st) := by
      simp only [get_recent_messages, lastSlice]
      exact List.Pairwise.sublist (List.drop_sublist _ _) hs
    exact List.Pairwise.map _ (fun a b hab => hab) hd

/-- C4: while a profile is in state `need_age`, an input whose stripped
text is an integer in [1,120] sets `age` to it and advances the state to
`ready`; any other input (parse failure or out-of-range) leaves the state
`need_age` and `age` unset and answers the fixed digits-please reply. -/
theorem C4_need_age_transitions (r s : LLM) (st : Store) (uid text : Str)
    (u : UserProfile) (h : findUser st uid = some u)
    (hst : u.state = str "need_age") (hage : u.age = none)
    (hr : ¬(trim text = str "リセット")) (hm : ¬(trim text = str "記憶みせて")) :
    (∀ a : Int, parseInt (trim text) = some a → 1 ≤ a → a ≤ 120 →
      ∃ p, findUser (handleEvent r s st uid text).1 uid = some p ∧
        p.age = some a ∧ p.state = str "ready") ∧
    (parseAge (trim text) = none →
      (handleEvent r s st uid text).2 = badAgeReply ∧
      ∃ p, findUser (handleEvent r s st uid text).1 uid = some p ∧
        p.state = str "need_age" ∧ p.age = none) := by
  constructor
  · intro a hpi ha1 ha120
    have hp : parseAge (trim text) = some a := by
      simp only [parseAge, hpi]
      rw [if_neg (by omega)]
    rw [handleEvent_need_age_ok h hst hr hm hp]
    have h1 : findUser (update_user uid
        (fun v => { v with age := some a, state := str "ready" }) st) uid
        = some { u with age := some a, state := str "ready",
                        updated_at := st.clock } := by
      rw [findUser_update_user
            (fun v => { v with age := some a, state := str "ready" })
            (fun v => rfl), h]
      rfl
    have h3 : ∀ c : Str, findUser (save_message uid (str "assistant") c false
        (save_message uid (str "user") text true
          (update_user uid
            (fun v => { v with age := some a, state := str "ready" }) st))) uid
        = some { u with age := some a, state := str "ready",
                        message_count := u.message_count + 1,
                        updated_at := st.clock + 1 } := by
      intro c
      rw [findUser_congr_users save_message_users_false, findUser_save_user h1]
      rfl
    exact ⟨_, h3 _, rfl, rfl⟩
  · intro hp
    rw [handleEvent_need_age_bad h hst hr hm hp]
    refine ⟨rfl, ?_⟩
    have h3 : ∀ c : Str, findUser (save_message uid (str "assistant") c false
        (save_message uid (str "user") text true st)) uid
        = some { u with message_count := u.message_count + 1,
                        updated_at := st.clock + 1 } := by
      intro c
      rw [findUser_congr_users save_message_users_false, findUser_save_user h]
    exact ⟨_, h3 _, hst, hage⟩

/-- C4 witness: a user in `need_age` sending `"12"` advances to `ready`
with age 12, while `"0"`, `"121"`, `"abc"` and `""` are all rejected with
the fixed re-prompt and no state change. -/
theorem C4_need_age_transitions_witness :
    parseAge (trim (str "0")) = none ∧ parseAge (trim (str "121")) = none ∧
    parseAge (trim (str "abc")) = none ∧ parseAge (trim (str "")) = none ∧
    ((∀ a : Int, parseInt (trim (str "12")) = some a → 1 ≤ a → a ≤ 120 →
      ∃ p, findUser (handleEvent (fun _ => none) (fun _ => none)
          ⟨[⟨str "U1", str "たろう", none, str "need_age", [], 1, 0, 0⟩], [], 5⟩
          (str "U1") (str "12")).1 (str "U1") = some p ∧
        p.age = some a ∧ p.state = str "ready") ∧
    (parseAge (trim (str "12")) = none →
      (handleEvent (fun _ => none) (fun _ => none)
          ⟨[⟨str "U1", str "たろう", none, str "need_age", [], 1, 0, 0⟩], [], 5⟩
          (str "U1") (str "12")).2 = badAgeReply ∧
      ∃ p, findUser (handleEvent (fun _ => none) (fun _ => none)
          ⟨[⟨str "U1", str "たろう", none, str "need_age", [], 1, 0, 0⟩], [], 5⟩
          (str "U1") (str "12")).1 (str "U1") = some p ∧
        p.state = str "need_age" ∧ p.age = none)) := by
  refine ⟨by decide, by decide, by decide, by decide, ?_⟩
  exact C4_need_age_transitions (fun _ => none) (fun _ => none)
    ⟨[⟨str "U1", str "たろう", none, str "need_age", [], 1, 0, 0⟩], [], 5⟩
    (str "U1") (str "12") ⟨str "U1", str "たろう", none, str "need_age", [], 1, 0, 0⟩
    (by decide) (by decide) (by decide) (by decide) (by decide)

/-- C5: when the reply-generation backend fails on a `ready`-state
message, the delivered reply is the fixed apologetic fallback, both the
user turn and the fallback assistant turn are persisted, and only the
user turn counts (`message_count` rises by exactly 1). -/
theorem C5_backend_failure_fallback (r s : LLM) (st : Store) (uid text : Str)
    (u : UserProfile) (h : findUser st uid = some u)
    (hst : u.state = str "ready")
    (hr : ¬(trim text = str "リセット")) (hm : ¬(trim text = str "記憶みせて"))
    (hfail : ∀ p, r p = none) :
    (handleEvent r s st uid text).2 = fallbackText ∧
    (handleEvent r s st uid text).1.messages =
      st.messages ++ [⟨uid, str "user", text, st.clock⟩,
                      ⟨uid, str "assistant", fallbackText, st.clock + 1⟩] ∧
    countOf (handleEvent r s st uid text).1 uid = some (u.message_count + 1) := by
  have h0 : ¬(u.state = []) := by rw [hst]; exact state_ready_ne_nil
  have h1 : ¬(u.state = str "need_name") := by rw [hst]; exact state_ready_ne_need_name
  have h2 : ¬(u.state = str "need_age") := by rw [hst]; exact state_ready_ne_need_age
  rw [handleEvent_normal h h0 h1 h2 hr hm]
  simp only [generate_ai_reply, hfail]
  refine ⟨trivial, ?_, ?_⟩
  · rcases save_message_messages uid (str "user") text true st with ⟨hm1, hc1⟩
    rcases save_message_messages uid (str "assistant") fallbackText false
      (save_message uid (str "user") text true st) with ⟨hm2, _⟩
    rw [hm2, hm1, hc1]
    simp
  · rw [countOf_congr_users save_message_users_false, countOf_save_user h]

/-- C5 witness: a concrete `ready` profile with a failing backend. -/
theorem C5_backend_failure_fallback_witness :
    (handleEvent (fun _ => none) (fun _ => none)
        ⟨[⟨str "U1", str "たろう", some 8, str "ready", [], 4, 0, 0⟩], [], 7⟩
        (str "U1") (str "やあ")).2 = fallbackText ∧
    (handleEvent (fun _ => none) (fun _ => none)
        ⟨[⟨str "U1", str "たろう", some 8, str "ready", [], 4, 0, 0⟩], [], 7⟩
        (str "U1") (str "やあ")).1.messages =
      [] ++ [⟨str "U1", str "user", str "やあ", 7⟩,
             ⟨str "U1", str "assistant", fallbackText, 7 + 1⟩] ∧
    countOf (handleEvent (fun _ => none) (fun _ => none)
        ⟨[⟨str "U1", str "たろう", some 8, str "ready", [], 4, 0, 0⟩], [], 7⟩
        (str "U1") (str "やあ")).1 (str "U1") = some (4 + 1) :=
  C5_backend_failure_fallback (fun _ => none) (fun _ => none)
    ⟨[⟨str "U1", str "たろう", some 8, str "ready", [], 4, 0, 0⟩], [], 7⟩
    (str "U1") (str "やあ") ⟨str "U1", str "たろう", some 8, str "ready", [], 4, 0, 0⟩
    (by decide) (by decide) (by decide) (by decide) (fun _ => rfl)

/-- C9: when the summarization backend fails, `persona_summary` is left
unchanged and the failure is swallowed: the exchange still delivers the
generated reply. -/
theorem C9_summarizer_failure_harmless (r s : LLM) (st : Store) (uid text : Str)
    (u : UserProfile) (rep : Str) (h : findUser st uid = some u)
    (hst : u.state = str "ready")
    (hr : ¬(trim text = str "リセット")) (hm : ¬(trim text = str "記憶みせて"))
    (hok : ∀ p, r p = some rep) (hs : ∀ p, s p = none) :
    (handleEvent r s st uid text).2 = trim rep ∧
    personaOf (handleEvent r s st uid text).1 uid = some u.persona_summary := by
  have h0 : ¬(u.state = []) := by rw [hst]; exact state_ready_ne_nil
  have h1 : ¬(u.state = str "need_name") := by rw [hst]; exact state_ready_ne_need_name
  have h2 : ¬(u.state = str "need_age") := by rw [hst]; exact state_ready_ne_need_age
  rw [handleEvent_normal h h0 h1 h2 hr hm]
  simp only [generate_ai_reply, hok]
  refine ⟨trivial, ?_⟩
  rw [personaOf_update_persona_none hs]
  rw [personaOf_congr_users save_message_users_false, personaOf_save_user h]

/-- C9 witness: concrete `ready` profile, successful reply backend,
failing summarizer backend. -/
theorem C9_summarizer_failure_harmless_witness :
    (handleEvent (fun _ => some (str " HELLO ")) (fun _ => none)
        ⟨[⟨str "U1", str "たろう", some 8, str "ready", str "やさしい", 10, 0, 0⟩], [], 3⟩
        (str "U1") (str "やあ")).2 = trim (str " HELLO ") ∧
    personaOf (handleEvent (fun _ => some (str " HELLO ")) (fun _ => none)
        ⟨[⟨str "U1", str "たろう", some 8, str "ready", str "やさしい", 10, 0, 0⟩], [], 3⟩
        (str "U1") (str "やあ")).1 (str "U1") = some (str "やさしい") :=
  C9_summarizer_failure_harmless (fun _ => some (str " HELLO ")) (fun _ => none)
    ⟨[⟨str "U1", str "たろう", some 8, str "ready", str "やさしい", 10, 0, 0⟩], [], 3⟩
    (str "U1") (str "やあ")
    ⟨str "U1", str "たろう", some 8, str "ready", str "やさしい", 10, 0, 0⟩
    (str " HELLO ") (by decide) (by decide) (by decide) (by decide)
    (fun _ => rfl) (fun _ => rfl)

theorem countOf_user_then_assistant {X : Store} {uid text c : Str} {w : UserProfile}
    (h : findUser X uid = some w) :
    countOf (save_message uid (str "assistant") c false
      (save_message uid (str "user") text true X)) uid
      = some (w.message_count + 1) := by
  rw [countOf_congr_users save_message_users_false, countOf_save_user h]

/-- C1 counterexample: on an empty store, the very first message — handled
by the `need_name` onboarding branch (the reply is the name
acknowledgment) — already raises `message_count` from 0 to 1, so turns
handled in `need_name` DO change `message_count`. -/
theorem C1_counterexample :
    findUser (⟨[], [], 0⟩ : Store) (str "U1") = none ∧
    (handleEvent (fun _ => none) (fun _ => none) ⟨[], [], 0⟩ (str "U1")
      (str "たろう")).2 = needNameReply (str "たろう") ∧
    countOf (handleEvent (fun _ => none) (fun _ => none) ⟨[], [], 0⟩ (str "U1")
      (str "たろう")).1 (str "U1") = some 1 := by decide

/-- C1 amended: every handled inbound message other than the two reserved
commands increments the sender's `message_count` by exactly 1, in EVERY
state (`need_name`, `need_age` — including rejected age attempts — and
`ready`, with or without backend failure); the assistant turns saved in
the same exchange never change it (they are saved with
`count_up = False`). -/
theorem C1_amended_count_increment (r s : LLM) (st : Store) (uid text : Str)
    (hr : ¬(trim text = str "リセット")) (hm : ¬(trim text = str "記憶みせて")) :
    countOf (handleEvent r s st uid text).1 uid
      = some ((countOf st uid).getD 0 + 1) := by
  cases hfind : findUser st uid with
  | none =>
      have hrhs : (countOf st uid).getD 0 = 0 := by simp [countOf, hfind]
      rw [hrhs, handleEvent_fresh hfind hr hm]
      have hf := findUser_append_fresh
        ⟨uid, [], none, str "need_name", [], 0, st.clock, st.clock⟩ hfind rfl
      have h1 : findUser (update_user uid
          (fun v => { v with display_name := trim text, state := str "need_age" })
          { st with users := st.users ++
              [⟨uid, [], none, str "need_name", [], 0, st.clock, st.clock⟩] }) uid
          = some ⟨uid, trim text, none, str "need_age", [], 0, st.clock, st.clock⟩ := by
        rw [findUser_update_user
              (fun v => { v with display_name := trim text, state := str "need_age" })
              (fun v => rfl), hf]
        rfl
      rw [countOf_user_then_assistant h1]
  | some u =>
      have hrhs : (countOf st uid).getD 0 = u.message_count := by
        simp [countOf, hfind]
      rw [hrhs]
      by_cases h0 : u.state = []
      · rw [handleEvent_need_name hfind (Or.inr h0) hr hm]
        have h1 : findUser (update_user uid
            (fun v => { v with display_name := trim text, state := str "need_age" })
            st) uid
            = some { u with display_name := trim text, state := str "need_age",
                            updated_at := st.clock } := by
          rw [findUser_update_user
                (fun v => { v with display_name := trim text, state := str "need_age" })
                (fun v => rfl), hfind]
          rfl
        rw [countOf_user_then_assistant h1]
      by_cases h1 : u.state = str "need_name"
      · rw [handleEvent_need_name hfind (Or.inl h1) hr hm]
        have hh : findUser (update_user uid
            (fun v => { v with display_name := trim text, state := str "need_age" })
            st) uid
            = some { u with display_name := trim text, state := str "need_age",
                            updated_at := st.clock } := by
          rw [findUser_update_user
                (fun v => { v with display_name := trim text, state := str "need_age" })
                (fun v => rfl), hfind]
          rfl
        rw [countOf_user_then_assistant hh]
      by_cases h2 : u.state = str "need_age"
      · cases hp : parseAge (trim text) with
        | none =>
            rw [handleEvent_need_age_bad hfind h2 hr hm hp]
            rw [countOf_user_then_assistant hfind]
        | some a =>
            rw [handleEvent_need_age_ok hfind h2 hr hm hp]
            have hh : findUser (update_user uid
                (fun v => { v with age := some a, state := str "ready" }) st) uid
                = some { u with age := some a, state := str "ready",
                                updated_at := st.clock } := by
              rw [findUser_update_user
                    (fun v => { v with age := some a, state := str "ready" })
                    (fun v => rfl), hfind]
              rfl
            rw [countOf_user_then_assistant hh]
      · rw [handleEvent_normal hfind h0 h1 h2 hr hm]
        cases hllm : r (buildPrompt u (get_recent_messages uid 8 st) text) with
        | none =>
            simp only [generate_ai_reply, hllm]
            rw [countOf_user_then_assistant hfind]
        | some rep =>
            simp only [generate_ai_reply, hllm]
            rw [countOf_update_persona,
                countOf_congr_users save_message_users_false,
                countOf_save_user hfind]

/-- C1 amended witness: a rejected age attempt (`"abc"` in `need_age`)
still increments `message_count` from 3 to 4. -/
theorem C1_amended_count_increment_witness :
    countOf (handleEvent (fun _ => none) (fun _ => none)
        ⟨[⟨str "U1", str "たろう", none, str "need_age", [], 3, 0, 0⟩], [], 2⟩
        (str "U1") (str "abc")).1 (str "U1")
      = some ((countOf
          ⟨[⟨str "U1", str "たろう", none, str "need_age", [], 3, 0, 0⟩], [], 2⟩
          (str "U1")).getD 0 + 1) :=
  C1_amended_count_increment (fun _ => none) (fun _ => none)
    ⟨[⟨str "U1", str "たろう", none, str "need_age", [], 3, 0, 0⟩], [], 2⟩
    (str "U1") (str "abc") (by decide) (by decide)

/-- C2 counterexample: with both backends succeeding, a `ready` user whose
stored `message_count` is 9 sends a message; after the turn is counted the
count is 10 — by the claim the summarizer must overwrite
`persona_summary` — yet it stays empty, because the code gates on the
pre-increment snapshot (9). -/
theorem C2_counterexample :
    countOf (handleEvent (fun _ => some (str "R")) (fun _ => some (str "S"))
        ⟨[⟨str "U1", str "たろう", some 8, str "ready", [], 9, 0, 0⟩], [], 0⟩
        (str "U1") (str "やあ")).1 (str "U1") = some 10 ∧
    personaOf (handleEvent (fun _ => some (str "R")) (fun _ => some (str "S"))
        ⟨[⟨str "U1", str "たろう", some 8, str "ready", [], 9, 0, 0⟩], [], 0⟩
        (str "U1") (str "やあ")).1 (str "U1") = some [] := by decide

/-- C2 amended: the summarizer runs once per `ready`-state exchange after
the user's turn is counted, but it evaluates the profile snapshot taken
BEFORE counting: with both backends succeeding it overwrites
`persona_summary` (with the stripped summary) iff the pre-turn
`message_count` is ≥ 10 and divisible by 10 — i.e. at counted counts
11, 21, 31, …, and never at counted count 10. -/
theorem C2_amended_summarizer_off_by_one (r s : LLM) (st : Store)
    (uid text : Str) (u : UserProfile) (rep sum : Str)
    (h : findUser st uid = some u) (hst : u.state = str "ready")
    (hr : ¬(trim text = str "リセット")) (hm : ¬(trim text = str "記憶みせて"))
    (hok : ∀ p, r p = some rep) (hs : ∀ p, s p = some sum) :
    countOf (handleEvent r s st uid text).1 uid = some (u.message_count + 1) ∧
    personaOf (handleEvent r s st uid text).1 uid
      = some (if 10 ≤ u.message_count ∧ u.message_count % 10 = 0
              then trim sum else u.persona_summary) := by
  have h0 : ¬(u.state = []) := by rw [hst]; exact state_ready_ne_nil
  have h1 : ¬(u.state = str "need_name") := by rw [hst]; exact state_ready_ne_need_name
  have h2 : ¬(u.state = str "need_age") := by rw [hst]; exact state_ready_ne_need_age
  rw [handleEvent_normal h h0 h1 h2 hr hm]
  simp only [generate_ai_reply, hok]
  constructor
  · rw [countOf_update_persona, countOf_congr_users save_message_users_false,
        countOf_save_user h]
  · by_cases hdue : 10 ≤ u.message_count ∧ u.message_count % 10 = 0
    · rw [if_pos hdue]
      have hmem : (⟨uid, str "user", text, st.clock⟩ : Turn) ∈
          (save_message uid (str "assistant") (trim rep) false
            (save_message uid (str "user") text true st)).messages := by
        rcases save_message_messages uid (str "user") text true st with ⟨hA, _⟩
        rcases save_message_messages uid (str "assistant") (trim rep) false
          (save_message uid (str "user") text true st) with ⟨hB, _⟩
        rw [hB, hA]
        simp
      have hne : ¬((save_message uid (str "assistant") (trim rep) false
            (save_message uid (str "user") text true st)).messages.filter
          (fun t => decide (t.user_id = uid ∧ t.role = str "user")) = []) := by
        intro hnil
        have hin : (⟨uid, str "user", text, st.clock⟩ : Turn) ∈
            (save_message uid (str "assistant") (trim rep) false
              (save_message uid (str "user") text true st)).messages.filter
            (fun t => decide (t.user_id = uid ∧ t.role = str "user")) :=
          List.mem_filter.2 ⟨hmem, by simp⟩
        rw [hnil] at hin
        exact absurd hin (List.not_mem_nil _)
      rw [update_persona_due hdue hne hs]
      have hw : findUser (save_message uid (str "assistant") (trim rep) false
          (save_message uid (str "user") text true st)) uid
          = some { u with message_count := u.message_count + 1,
                          updated_at := st.clock + 1 } := by
        rw [findUser_congr_users save_message_users_false, findUser_save_user h]
      simp only [personaOf,
        findUser_update_user (fun v => { v with persona_summary := trim sum })
          (fun v => rfl), hw]
      rfl
    · rw [if_neg hdue]
      rw [update_persona_not_due (by omega)]
      rw [personaOf_congr_users save_message_users_false, personaOf_save_user h]

/-- C2 amended witness: pre-turn count 10 (counted count 11) DOES fire and
overwrites the persona with the stripped summary. -/
theorem C2_amended_summarizer_off_by_one_witness :
    countOf (handleEvent (fun _ => some (str "R")) (fun _ => some (str " S "))
        ⟨[⟨str "U1", str "たろう", some 8, str "ready", [], 10, 0, 0⟩],
         [⟨str "U1", str "user", str "こんにちは", 0⟩], 1⟩
        (str "U1") (str "やあ")).1 (str "U1") = some (10 + 1) ∧
    personaOf (handleEvent (fun _ => some (str "R")) (fun _ => some (str " S "))
        ⟨[⟨str "U1", str "たろう", some 8, str "ready", [], 10, 0, 0⟩],
         [⟨str "U1", str "user", str "こんにちは", 0⟩], 1⟩
        (str "U1") (str "やあ")).1 (str "U1")
      = some (if 10 ≤ 10 ∧ 10 % 10 = 0 then trim (str " S ") else []) :=
  C2_amended_summarizer_off_by_one (fun _ => some (str "R"))
    (fun _ => some (str " S "))
    ⟨[⟨str "U1", str "たろう", some 8, str "ready", [], 10, 0, 0⟩],
     [⟨str "U1", str "user", str "こんにちは", 0⟩], 1⟩
    (str "U1") (str "やあ")
    ⟨str "U1", str "たろう", some 8, str "ready", [], 10, 0, 0⟩
    (str "R") (str " S ")
    (by decide) (by decide) (by decide) (by decide) (fun _ => rfl) (fun _ => rfl)

theorem findUser_delete (st : Store) (uid : Str) :
    findUser (delete_user uid st) uid = none := by
  rw [findUser, List.find?_eq_none]
  intro x hx
  have hmem := List.mem_filter.1 hx
  simpa using hmem.2

theorem messages_delete (st : Store) (uid : Str) :
    (delete_user uid st).messages.filter (fun t => decide (t.user_id = uid)) = [] := by
  rw [List.filter_eq_nil_iff]
  intro t ht
  have hmem := List.mem_filter.1 ht
  simpa using hmem.2

theorem handleEvent_reset_fresh {r s : LLM} {st : Store} {uid text : Str}
    (h : findUser st uid = none) (hreset : trim text = str "リセット") :
    handleEvent r s st uid text =
      (delete_user uid { st with users := st.users ++
          [⟨uid, [], none, str "need_name", [], 0, st.clock, st.clock⟩] },
       resetText) := by
  simp [handleEvent, get_or_create_of_fresh h, hreset]

/-- Shared helper: the outcome of a fresh user's first non-command message
— the `need_name` branch consumes the text as the name. -/
theorem fresh_user_first_message (r s : LLM) (st : Store) (uid text : Str)
    (h : findUser st uid = none)
    (hr : ¬(trim text = str "リセット")) (hm : ¬(trim text = str "記憶みせて")) :
    (handleEvent r s st uid text).2 = needNameReply (trim text) ∧
    findUser (handleEvent r s st uid text).1 uid =
      some ⟨uid, trim text, none, str "need_age", [], 1, st.clock,
            st.clock + 1⟩ := by
  rw [handleEvent_fresh h hr hm]
  refine ⟨rfl, ?_⟩
  have hf := findUser_append_fresh
    ⟨uid, [], none, str "need_name", [], 0, st.clock, st.clock⟩ h rfl
  have h1 : findUser (update_user uid
      (fun v => { v with display_name := trim text, state := str "need_age" })
      { st with users := st.users ++
          [⟨uid, [], none, str "need_name", [], 0, st.clock, st.clock⟩] }) uid
      = some ⟨uid, trim text, none, str "need_age", [], 0, st.clock, st.clock⟩ := by
    rw [findUser_update_user
          (fun v => { v with display_name := trim text, state := str "need_age" })
          (fun v => rfl), hf]
    rfl
  rw [findUser_congr_users save_message_users_false, findUser_save_user h1]
  rfl

/-- C3 counterexample: a fresh user's first message "こんにちは" is consumed
as the name — the reply acknowledges it as a name and asks for the AGE
(「年れい」), and contains no request for a name (no 「名を教えて」). -/
theorem C3_counterexample :
    (handleEvent (fun _ => none) (fun _ => none) ⟨[], [], 0⟩ (str "U1")
        (str "こんにちは")).2 = needNameReply (str "こんにちは") ∧
    ¬ (str "名を教えて") <:+:
      (handleEvent (fun _ => none) (fun _ => none) ⟨[], [], 0⟩ (str "U1")
        (str "こんにちは")).2 ∧
    (str "年れい") <:+:
      (handleEvent (fun _ => none) (fun _ => none) ⟨[], [], 0⟩ (str "U1")
        (str "こんにちは")).2 := by decide

/-- C3 amended: a fresh `user_id`'s first message does create a profile
with `message_count = 0` and state `need_name`, but that very message is
then consumed by the `need_name` branch as the name: the reply echoes the
name and asks for the age, and afterwards `display_name` is the stripped
text, the state is `need_age`, and `message_count` is 1. -/
theorem C3_amended_first_message (r s : LLM) (st : Store) (uid text : Str)
    (h : findUser st uid = none)
    (hr : ¬(trim text = str "リセット")) (hm : ¬(trim text = str "記憶みせて")) :
    (get_or_create_user uid st).1.message_count = 0 ∧
    (get_or_create_user uid st).1.state = str "need_name" ∧
    (handleEvent r s st uid text).2 = needNameReply (trim text) ∧
    findUser (handleEvent r s st uid text).1 uid =
      some ⟨uid, trim text, none, str "need_age", [], 1, st.clock,
            st.clock + 1⟩ := by
  rcases fresh_user_first_message r s st uid text h hr hm with ⟨hrep, hprof⟩
  rw [get_or_create_of_fresh h]
  exact ⟨rfl, rfl, hrep, hprof⟩

/-- C3 amended witness: concrete fresh user on the empty store. -/
theorem C3_amended_first_message_witness :
    (get_or_create_user (str "U1") ⟨[], [], 0⟩).1.message_count = 0 ∧
    (get_or_create_user (str "U1") ⟨[], [], 0⟩).1.state = str "need_name" ∧
    (handleEvent (fun _ => none) (fun _ => none) ⟨[], [], 0⟩ (str "U1")
      (str "ハナ")).2 = needNameReply (trim (str "ハナ")) ∧
    findUser (handleEvent (fun _ => none) (fun _ => none) ⟨[], [], 0⟩
        (str "U1") (str "ハナ")).1 (str "U1") =
      some ⟨str "U1", trim (str "ハナ"), none, str "need_age", [], 1, 0, 0 + 1⟩ :=
  C3_amended_first_message (fun _ => none) (fun _ => none) ⟨[], [], 0⟩
    (str "U1") (str "ハナ") (by decide) (by decide) (by decide)

/-- C8: the reset keyword, in any state (even for an unseen `user_id`),
deletes the sender's profile and all of their turns, answers the fixed
memory-cleared reply, and the immediately following message from the same
`user_id` is handled as a brand-new user: it starts in `need_name`, so
its text becomes the name and the profile re-enters the onboarding flow. -/
theorem C8_reset_clears_and_restarts (r s : LLM) (st : Store)
    (uid text next : Str) (hreset : trim text = str "リセット")
    (hr : ¬(trim next = str "リセット")) (hm : ¬(trim next = str "記憶みせて")) :
    (handleEvent r s st uid text).2 = resetText ∧
    findUser (handleEvent r s st uid text).1 uid = none ∧
    ((handleEvent r s st uid text).1.messages.filter
        (fun t => decide (t.user_id = uid)) = []) ∧
    (handleEvent r s (handleEvent r s st uid text).1 uid next).2
        = needNameReply (trim next) ∧
    (∃ p, findUser (handleEvent r s (handleEvent r s st uid text).1 uid next).1
          uid = some p ∧
        p.state = str "need_age" ∧ p.display_name = trim next ∧
        p.message_count = 1) := by
  have hD : ∃ Y : Store, handleEvent r s st uid text = (delete_user uid Y, resetText) := by
    cases hfind : findUser st uid with
    | some u => exact ⟨st, handleEvent_reset hfind hreset⟩
    | none => exact ⟨_, handleEvent_reset_fresh hfind hreset⟩
  rcases hD with ⟨Y, hY⟩
  rw [hY]
  have hgone : findUser (delete_user uid Y) uid = none := findUser_delete Y uid
  rcases fresh_user_first_message r s (delete_user uid Y) uid next hgone hr hm
    with ⟨hrep, hprof⟩
  exact ⟨rfl, hgone, messages_delete Y uid, hrep, ⟨_, hprof, rfl, rfl, rfl⟩⟩

/-- C8 witness: a populated store; reset wipes the user and the next
message restarts onboarding. -/
theorem C8_reset_clears_and_restarts_witness :
    (handleEvent (fun _ => none) (fun _ => none)
        ⟨[⟨str "U1", str "たろう", some 8, str "ready", str "すなお", 12, 0, 0⟩],
         [⟨str "U1", str "user", str "やあ", 3⟩], 4⟩
        (str "U1") (str " リセット ")).2 = resetText ∧
    findUser (handleEvent (fun _ => none) (fun _ => none)
        ⟨[⟨str "U1", str "たろう", some 8, str "ready", str "すなお", 12, 0, 0⟩],
         [⟨str "U1", str "user", str "やあ", 3⟩], 4⟩
        (str "U1") (str " リセット ")).1 (str "U1") = none ∧
    ((handleEvent (fun _ => none) (fun _ => none)
        ⟨[⟨str "U1", str "たろう", some 8, str "ready", str "すなお", 12, 0, 0⟩],
         [⟨str "U1", str "user", str "やあ", 3⟩], 4⟩
        (str "U1") (str " リセット ")).1.messages.filter
        (fun t => decide (t.user_id = str "U1")) = []) ∧
    (handleEvent (fun _ => none) (fun _ => none)
        ((handleEvent (fun _ => none) (fun _ => none)
          ⟨[⟨str "U1", str "たろう", some 8, str "ready", str "すなお", 12, 0, 0⟩],
           [⟨str "U1", str "user", str "やあ", 3⟩], 4⟩
          (str "U1") (str " リセット ")).1) (str "U1") (str "ハナ")).2
        = needNameReply (trim (str "ハナ")) ∧
    (∃ p, findUser (handleEvent (fun _ => none) (fun _ => none)
        ((handleEvent (fun _ => none) (fun _ => none)
          ⟨[⟨str "U1", str "たろう", some 8, str "ready", str "すなお", 12, 0, 0⟩],
           [⟨str "U1", str "user", str "やあ", 3⟩], 4⟩
          (str "U1") (str " リセット ")).1) (str "U1") (str "ハナ")).1
          (str "U1") = some p ∧
        p.state = str "need_age" ∧ p.display_name = trim (str "ハナ") ∧
        p.message_count = 1) :=
  C8_reset_clears_and_restarts (fun _ => none) (fun _ => none)
    ⟨[⟨str "U1", str "たろう", some 8, str "ready", str "すなお", 12, 0, 0⟩],
     [⟨str "U1", str "user", str "やあ", 3⟩], 4⟩
    (str "U1") (str " リセット ") (str "ハナ")
    (by decide) (by decide) (by decide)

theorem infix_of_parts (x a b l : Str) (h : a ++ x ++ b = l) : x <:+: l := ⟨a, b, h⟩

theorem mem_infix_joinComma (x : Str) (l : List Str) (hx : x ∈ l) :
    x <:+: joinComma l := by
  induction l with
  | nil => cases hx
  | cons y ys ih =>
      cases ys with
      | nil =>
          rcases List.mem_singleton.1 hx with rfl
          exact List.infix_refl x
      | cons z zs =>
          rcases List.mem_cons.1 hx with rfl | hx'
          · exact infix_of_parts x [] (str ", " ++ joinComma (z :: zs)) _
              (by simp [joinComma])
          · refine List.IsInfix.trans (ih hx') ?_
            exact infix_of_parts (joinComma (z :: zs))
              (y ++ str ", ") [] _ (by simp [joinComma])

theorem persona_infix_dumpUser (v : UserProfile) :
    v.persona_summary <:+: dumpUser v :=
  infix_of_parts v.persona_summary
    (str "\x7b\x22user_id\x22: \x22" ++ v.user_id
      ++ str "\x22, \x22display_name\x22: \x22" ++ v.display_name
      ++ str "\x22, \x22age\x22: "
      ++ (match v.age with | none => str "null" | some a => intToStr a)
      ++ str ", \x22state\x22: \x22" ++ v.state
      ++ str "\x22, \x22persona_summary\x22: \x22")
    (str "\x22, \x22message_count\x22: " ++ intToStr v.message_count ++ str "\x7d")
    (dumpUser v) (by simp [dumpUser])

theorem content_infix_dumpTurn (t : Turn) :
    t.content <:+: dumpTurn t :=
  infix_of_parts t.content
    (str "\x7b\x22user_id\x22: \x22" ++ t.user_id
      ++ str "\x22, \x22role\x22: \x22" ++ t.role
      ++ str "\x22, \x22content\x22: \x22")
    (str "\x22\x7d")
    (dumpTurn t) (by simp [dumpTurn])

theorem dumpUser_infix_dumpStore {st : Store} {v : UserProfile}
    (hv : v ∈ st.users) : dumpUser v <:+: dumpStore st := by
  refine List.IsInfix.trans
    (mem_infix_joinComma (dumpUser v) (st.users.map dumpUser)
      (List.mem_map_of_mem dumpUser hv)) ?_
  exact infix_of_parts (joinComma (st.users.map dumpUser))
    (str "\x7b\x22users\x22: [")
    (str "], \x22messages\x22: [" ++ joinComma (st.messages.map dumpTurn)
      ++ str "]\x7d")
    (dumpStore st) (by simp [dumpStore])

theorem dumpTurn_infix_dumpStore {st : Store} {t : Turn}
    (ht : t ∈ st.messages) : dumpTurn t <:+: dumpStore st := by
  refine List.IsInfix.trans
    (mem_infix_joinComma (dumpTurn t) (st.messages.map dumpTurn)
      (List.mem_map_of_mem dumpTurn ht)) ?_
  exact infix_of_parts (joinComma (st.messages.map dumpTurn))
    (str "\x7b\x22users\x22: [" ++ joinComma (st.users.map dumpUser)
      ++ str "], \x22messages\x22: [")
    (str "]\x7d")
    (dumpStore st) (by simp [dumpStore])

/-- C10: for every profiled user, in any state, a message whose stripped
text is 記憶みせて is intercepted before state dispatch and answered with
the raw contents of the whole store file — whose dump contains every
user's persona summary and every logged turn — truncated to 2500
characters with the fixed marker; the store (profiles and turns of ALL
users) is completely unchanged. -/
theorem C10_memory_display (r s : LLM) (st : Store) (uid text : Str)
    (u : UserProfile) (h : findUser st uid = some u)
    (hmv : trim text = str "記憶みせて") :
    (handleEvent r s st uid text).1 = st ∧
    (handleEvent r s st uid text).2 =
      memoryHeader ++
        (if 2500 < (dumpStore st).length
         then (dumpStore st).take 2500 ++ truncationNote
         else dumpStore st) ∧
    (∀ v ∈ st.users, v.persona_summary <:+: dumpStore st) ∧
    (∀ t ∈ st.messages, t.content <:+: dumpStore st) := by
  have hr : ¬(trim text = str "リセット") := by rw [hmv]; decide
  have hne : ¬(str "記憶みせて" = str "リセット") := by decide
  refine ⟨?_, ?_, ?_, ?_⟩
  · simp [handleEvent, get_or_create_of_found h, hmv, hr, hne]
  · simp [handleEvent, get_or_create_of_found h, hmv, hr, hne]
  · exact fun v hv => (persona_infix_dumpUser v).trans (dumpUser_infix_dumpStore hv)
  · exact fun t ht => (content_infix_dumpTurn t).trans (dumpTurn_infix_dumpStore ht)

/-- C10 witness: a store with two users; the sender is mid-onboarding
(`need_age`) and still receives the full dump, including the OTHER user's
persona summary and turns, with nothing changed. -/
theorem C10_memory_display_witness :
    (handleEvent (fun _ => none) (fun _ => none)
        ⟨[⟨str "U1", str "たろう", none, str "need_age", [], 1, 0, 0⟩,
          ⟨str "U2", str "ハナ", some 9, str "ready", str "ひみつ", 20, 0, 0⟩],
         [⟨str "U2", str "user", str "ないしょの話", 1⟩], 2⟩
        (str "U1") (str "記憶みせて")).1 =
      ⟨[⟨str "U1", str "たろう", none, str "need_age", [], 1, 0, 0⟩,
        ⟨str "U2", str "ハナ", some 9, str "ready", str "ひみつ", 20, 0, 0⟩],
       [⟨str "U2", str "user", str "ないしょの話", 1⟩], 2⟩ ∧
    (handleEvent (fun _ => none) (fun _ => none)
        ⟨[⟨str "U1", str "たろう", none, str "need_age", [], 1, 0, 0⟩,
          ⟨str "U2", str "ハナ", some 9, str "ready", str "ひみつ", 20, 0, 0⟩],
         [⟨str "U2", str "user", str "ないしょの話", 1⟩], 2⟩
        (str "U1") (str "記憶みせて")).2 =
      memoryHeader ++
        (if 2500 < (dumpStore
            ⟨[⟨str "U1", str "たろう", none, str "need_age", [], 1, 0, 0⟩,
              ⟨str "U2", str "ハナ", some 9, str "ready", str "ひみつ", 20, 0, 0⟩],
             [⟨str "U2", str "user", str "ないしょの話", 1⟩], 2⟩).length
         then (dumpStore
            ⟨[⟨str "U1", str "たろう", none, str "need_age", [], 1, 0, 0⟩,
              ⟨str "U2", str "ハナ", some 9, str "ready", str "ひみつ", 20, 0, 0⟩],
             [⟨str "U2", str "user", str "ないしょの話", 1⟩], 2⟩).take 2500
              ++ truncationNote
         else dumpStore
            ⟨[⟨str "U1", str "たろう", none, str "need_age", [], 1, 0, 0⟩,
              ⟨str "U2", str "ハナ", some 9, str "ready", str "ひみつ", 20, 0, 0⟩],
             [⟨str "U2", str "user", str "ないしょの話", 1⟩], 2⟩) ∧
    (∀ v ∈ (⟨[⟨str "U1", str "たろう", none, str "need_age", [], 1, 0, 0⟩,
              ⟨str "U2", str "ハナ", some 9, str "ready", str "ひみつ", 20, 0, 0⟩],
             [⟨str "U2", str "user", str "ないしょの話", 1⟩], 2⟩ : Store).users,
      v.persona_summary <:+: dumpStore
        ⟨[⟨str "U1", str "たろう", none, str "need_age", [], 1, 0, 0⟩,
          ⟨str "U2", str "ハナ", some 9, str "ready", str "ひみつ", 20, 0, 0⟩],
         [⟨str "U2", str "user", str "ないしょの話", 1⟩], 2⟩) ∧
    (∀ t ∈ (⟨[⟨str "U1", str "たろう", none, str "need_age", [], 1, 0, 0⟩,
              ⟨str "U2", str "ハナ", some 9, str "ready", str "ひみつ", 20, 0, 0⟩],
             [⟨str "U2", str "user", str "ないしょの話", 1⟩], 2⟩ : Store).messages,
      t.content <:+: dumpStore
        ⟨[⟨str "U1", str "たろう", none, str "need_age", [], 1, 0, 0⟩,
          ⟨str "U2", str "ハナ", some 9, str "ready", str "ひみつ", 20, 0, 0⟩],
         [⟨str "U2", str "user", str "ないしょの話", 1⟩], 2⟩) :=
  C10_memory_display (fun _ => none) (fun _ => none)
    ⟨[⟨str "U1", str "たろう", none, str "need_age", [], 1, 0, 0⟩,
      ⟨str "U2", str "ハナ", some 9, str "ready", str "ひみつ", 20, 0, 0⟩],
     [⟨str "U2", str "user", str "ないしょの話", 1⟩], 2⟩
    (str "U1") (str "記憶みせて")
    ⟨str "U1", str "たろう", none, str "need_age", [], 1, 0, 0⟩
    (by decide) (by decide)

/-! ### Prompt-block disequalities (for C6) -/

theorem ne_append_of_getElem {a b x y : Str} (i : Nat) (c d : Char)
    (hc : a[i]? = some c) (hd : b[i]? = some d) (hcd : ¬(c = d)) :
    ¬(a ++ x = b ++ y) := by
  intro h
  have hla : i < a.length := by
    by_contra hge
    rw [List.getElem?_eq_none (Nat.le_of_not_lt hge)] at hc
    cases hc
  have hlb : i < b.length := by
    by_contra hge
    rw [List.getElem?_eq_none (Nat.le_of_not_lt hge)] at hd
    cases hd
  have heq : a[i]? = b[i]? := by
    rw [← List.getElem?_append_left hla, ← List.getElem?_append_left hlb, h]
  rw [hc, hd] at heq
  exact hcd (Option.some.inj heq)

theorem identity_ne_base (dn : Str) (ag : Option Int) :
    ¬(identityContent dn = base_system ++ get_age_language_rule ag) := by
  simp only [identityContent, List.append_assoc]
  exact ne_append_of_getElem 0 'こ' 'あ' (by decide) (by decide) (by decide)

theorem identity_ne_ageFact (dn : Str) (a : Int) :
    ¬(identityContent dn = ageFactContent a) := by
  simp only [identityContent, ageFactContent, List.append_assoc]
  exact ne_append_of_getElem 6 'の' 'は' (by decide) (by decide) (by decide)

theorem identity_ne_persona (dn p : Str) :
    ¬(identityContent dn = personaContent p) := by
  simp only [identityContent, personaContent, List.append_assoc]
  exact ne_append_of_getElem 6 'の' 'に' (by decide) (by decide) (by decide)

theorem ageFact_ne_base (a : Int) (ag : Option Int) :
    ¬(ageFactContent a = base_system ++ get_age_language_rule ag) := by
  simp only [ageFactContent, List.append_assoc]
  exact ne_append_of_getElem 0 'こ' 'あ' (by decide) (by decide) (by decide)

theorem ageFact_ne_identity (a : Int) (dn : Str) :
    ¬(ageFactContent a = identityContent dn) := by
  simp only [identityContent, ageFactContent, List.append_assoc]
  exact ne_append_of_getElem 6 'は' 'の' (by decide) (by decide) (by decide)

theorem ageFact_ne_persona (a : Int) (p : Str) :
    ¬(ageFactContent a = personaContent p) := by
  simp only [ageFactContent, personaContent, List.append_assoc]
  exact ne_append_of_getElem 6 'は' 'に' (by decide) (by decide) (by decide)

theorem persona_ne_base (p : Str) (ag : Option Int) :
    ¬(personaContent p = base_system ++ get_age_language_rule ag) := by
  simp only [personaContent, List.append_assoc]
  exact ne_append_of_getElem 0 'こ' 'あ' (by decide) (by decide) (by decide)

theorem persona_ne_identity (p dn : Str) :
    ¬(personaContent p = identityContent dn) := by
  simp only [identityContent, personaContent, List.append_assoc]
  exact ne_append_of_getElem 6 'に' 'の' (by decide) (by decide) (by decide)

theorem persona_ne_ageFact (p : Str) (a : Int) :
    ¬(personaContent p = ageFactContent a) := by
  simp only [ageFactContent, personaContent, List.append_assoc]
  exact ne_append_of_getElem 6 'に' 'は' (by decide) (by decide) (by decide)

theorem sys_not_in_history (recent : List Turn) (x : Str)
    (hrec : ∀ t ∈ recent, t.role = str "user" ∨ t.role = str "assistant") :
    ¬((str "system", x) ∈ recent.map (fun t => (t.role, t.content))) := by
  intro hx
  rcases List.mem_map.1 hx with ⟨t, ht, heq⟩
  have hrole : t.role = str "system" := congrArg Prod.fst heq
  rcases hrec t ht with h | h <;> rw [h] at hrole <;> exact absurd hrole (by decide)

theorem mem_buildPrompt_iff (user : UserProfile) (recent : List Turn) (txt : Str)
    (q : ChatMsg) :
    q ∈ buildPrompt user recent txt ↔
      (q = (str "system", base_system ++ get_age_language_rule user.age) ∨
       (¬(trim user.display_name = []) ∧
         q = (str "system", identityContent (trim user.display_name))) ∨
       (∃ a : Int, user.age = some a ∧ q = (str "system", ageFactContent a)) ∨
       (¬(user.persona_summary = []) ∧
         q = (str "system", personaContent user.persona_summary)) ∨
       q ∈ recent.map (fun t => (t.role, t.content)) ∨
       q = (str "user", txt)) := by
  by_cases hd : trim user.display_name = [] <;>
    rcases hage : user.age with _ | a <;>
      by_cases hp : user.persona_summary = [] <;>
        simp [buildPrompt, hd, hp, hage, List.mem_append, or_assoc]

/-- C6: the assembled prompt contains the identity block exactly when
`display_name` is non-empty (stored names are stripped), the age-fact
block exactly when `age` is set, and the persona block exactly when
`persona_summary` is non-empty; with all three set the prompt is exactly
base-directive-with-age-rule, identity, age-fact, persona, recent
history, then the new user utterance. -/
theorem C6_prompt_block_conditions (user : UserProfile) (recent : List Turn)
    (txt : Str) (hdn : trim user.display_name = user.display_name)
    (hrec : ∀ t ∈ recent, t.role = str "user" ∨ t.role = str "assistant") :
    ((str "system", identityContent user.display_name) ∈ buildPrompt user recent txt
        ↔ ¬(user.display_name = [])) ∧
    ((∀ a : Int, user.age = some a →
        (str "system", ageFactContent a) ∈ buildPrompt user recent txt) ∧
     (user.age = none → ∀ a : Int,
        ¬((str "system", ageFactContent a) ∈ buildPrompt user recent txt))) ∧
    ((str "system", personaContent user.persona_summary) ∈ buildPrompt user recent txt
        ↔ ¬(user.persona_summary = [])) ∧
    (∀ a : Int, ¬(user.display_name = []) → user.age = some a →
      ¬(user.persona_summary = []) →
      buildPrompt user recent txt =
        [(str "system", base_system ++ get_age_language_rule (some a)),
         (str "system", identityContent user.display_name),
         (str "system", ageFactContent a),
         (str "system", personaContent user.persona_summary)]
        ++ recent.map (fun t => (t.role, t.content))
        ++ [(str "user", txt)]) := by
  refine ⟨?_, ⟨?_, ?_⟩, ?_, ?_⟩
  · constructor
    · intro hmem hdnil
      rw [mem_buildPrompt_iff, hdn] at hmem
      rcases hmem with h1 | ⟨hne, h2⟩ | ⟨a, ha, h3⟩ | ⟨hpne, h4⟩ | h5 | h6
      · exact identity_ne_base _ _ (congrArg Prod.snd h1)
      · exact hne hdnil
      · exact identity_ne_ageFact _ a (congrArg Prod.snd h3)
      · exact identity_ne_persona _ _ (congrArg Prod.snd h4)
      · exact sys_not_in_history recent _ hrec h5
      · have hroles : str "system" = str "user" := congrArg Prod.fst h6
        exact absurd hroles (by decide)
    · intro hdne
      rw [mem_buildPrompt_iff, hdn]
      exact Or.inr (Or.inl ⟨hdne, rfl⟩)
  · intro a ha
    rw [mem_buildPrompt_iff]
    exact Or.inr (Or.inr (Or.inl ⟨a, ha, rfl⟩))
  · intro hnone a hmem
    rw [mem_buildPrompt_iff] at hmem
    rcases hmem with h1 | ⟨hne, h2⟩ | ⟨a', ha', h3⟩ | ⟨hpne, h4⟩ | h5 | h6
    · exact ageFact_ne_base a _ (congrArg Prod.snd h1)
    · exact ageFact_ne_identity a _ (congrArg Prod.snd h2)
    · rw [hnone] at ha'
      cases ha'
    · exact ageFact_ne_persona a _ (congrArg Prod.snd h4)
    · exact sys_not_in_history recent _ hrec h5
    · have hroles : str "system" = str "user" := congrArg Prod.fst h6
      exact absurd hroles (by decide)
  · constructor
    · intro hmem hpnil
      rw [mem_buildPrompt_iff] at hmem
      rcases hmem with h1 | ⟨hne, h2⟩ | ⟨a, ha, h3⟩ | ⟨hpne, h4⟩ | h5 | h6
      · exact persona_ne_base _ _ (congrArg Prod.snd h1)
      · exact persona_ne_identity _ _ (congrArg Prod.snd h2)
      · exact persona_ne_ageFact _ a (congrArg Prod.snd h3)
      · exact hpne hpnil
      · exact sys_not_in_history recent _ hrec h5
      · have hroles : str "system" = str "user" := congrArg Prod.fst h6
        exact absurd hroles (by decide)
    · intro hpne
      rw [mem_buildPrompt_iff]
      exact Or.inr (Or.inr (Or.inr (Or.inl ⟨hpne, rfl⟩)))
  · intro a hdne ha hpne
    simp only [buildPrompt, hdn, ha]
    rw [if_neg hdne, if_neg hpne]
    simp

/-- C6 witness: a concrete profile with all three optional fields set and
a one-turn history. -/
theorem C6_prompt_block_conditions_witness :
    ((str "system", identityContent
        (⟨str "U1", str "たろう", some 8, str "ready", str "ほん好き", 5, 0, 0⟩
          : UserProfile).display_name) ∈
        buildPrompt ⟨str "U1", str "たろう", some 8, str "ready", str "ほん好き", 5, 0, 0⟩
          [⟨str "U1", str "user", str "やあ", 0⟩] (str "こんにちは")
        ↔ ¬((⟨str "U1", str "たろう", some 8, str "ready", str "ほん好き", 5, 0, 0⟩
          : UserProfile).display_name = [])) ∧
    ((∀ a : Int, (⟨str "U1", str "たろう", some 8, str "ready", str "ほん好き", 5, 0, 0⟩
          : UserProfile).age = some a →
        (str "system", ageFactContent a) ∈
          buildPrompt ⟨str "U1", str "たろう", some 8, str "ready", str "ほん好き", 5, 0, 0⟩
            [⟨str "U1", str "user", str "やあ", 0⟩] (str "こんにちは")) ∧
     ((⟨str "U1", str "たろう", some 8, str "ready", str "ほん好き", 5, 0, 0⟩
          : UserProfile).age = none → ∀ a : Int,
        ¬((str "system", ageFactContent a) ∈
          buildPrompt ⟨str "U1", str "たろう", some 8, str "ready", str "ほん好き", 5, 0, 0⟩
            [⟨str "U1", str "user", str "やあ", 0⟩] (str "こんにちは")))) ∧
    ((str "system", personaContent
        (⟨str "U1", str "たろう", some 8, str "ready", str "ほん好き", 5, 0, 0⟩
          : UserProfile).persona_summary) ∈
        buildPrompt ⟨str "U1", str "たろう", some 8, str "ready", str "ほん好き", 5, 0, 0⟩
          [⟨str "U1", str "user", str "やあ", 0⟩] (str "こんにちは")
        ↔ ¬((⟨str "U1", str "たろう", some 8, str "ready", str "ほん好き", 5, 0, 0⟩
          : UserProfile).persona_summary = [])) ∧
    (∀ a : Int,
      ¬((⟨str "U1", str "たろう", some 8, str "ready", str "ほん好き", 5, 0, 0⟩
          : UserProfile).display_name = []) →
      (⟨str "U1", str "たろう", some 8, str "ready", str "ほん好き", 5, 0, 0⟩
          : UserProfile).age = some a →
      ¬((⟨str "U1", str "たろう", some 8, str "ready", str "ほん好き", 5, 0, 0⟩
          : UserProfile).persona_summary = []) →
      buildPrompt ⟨str "U1", str "たろう", some 8, str "ready", str "ほん好き", 5, 0, 0⟩
          [⟨str "U1", str "user", str "やあ", 0⟩] (str "こんにちは") =
        [(str "system", base_system ++ get_age_language_rule (some a)),
         (str "system", identityContent
           (⟨str "U1", str "たろう", some 8, str "ready", str "ほん好き", 5, 0, 0⟩
             : UserProfile).display_name),
         (str "system", ageFactContent a),
         (str "system", personaContent
           (⟨str "U1", str "たろう", some 8, str "ready", str "ほん好き", 5, 0, 0⟩
             : UserProfile).persona_summary)]
        ++ ([⟨str "U1", str "user", str "やあ", 0⟩] : List Turn).map
            (fun t => (t.role, t.content))
        ++ [(str "user", str "こんにちは")]) :=
  C6_prompt_block_conditions
    ⟨str "U1", str "たろう", some 8, str "ready", str "ほん好き", 5, 0, 0⟩
    [⟨str "U1", str "user", str "やあ", 0⟩] (str "こんにちは")
    (by decide) (by decide)
